import Mathlib

/-!
Shallow embedding of `src/main.cpp` (concurrent musical-chairs game).

The program runs `NUM_JOGADORES` player threads (`Jogador::joga`) against one
coordinator thread (`Coordenador::iniciar_jogo`).  Shared state consists of the
active-player vector `jogadores_ativos`, the per-round seated vector
`cadeiras_ocupadas`, a counting semaphore `cadeira_sem` (the chairs), and the
two atomic flags `musica_parada` and `jogo_ativo`.

The embedding below translates each C++ function into a pure Lean function on
an explicit state record.  Thread interleaving is made explicit where the
claims need it: a round of the coordinator loop (`rodada`) is parameterised by
the list of player ids whose claim attempts complete inside the coordinator's
settle window (`std::this_thread::sleep_for(500ms)` at main.cpp:175), in
completion order.  C++ `std::condition_variable` permits spurious wakeups and
`wait(lock, pred)` re-checks `pred` on every wakeup, so any subsequence of the
live player threads, in any order, is an admissible completion order for a
round; eliminated players' threads stay live (nothing in `Jogador::joga` stops
a player whose `eliminado` flag is set from attempting again), so their ids may
appear in later rounds' orders as well.
-/

namespace MusicalChairs

/-- Player identifiers are C++ `int`s. -/
abbrev PlayerId := Int

/-- Source constant `NUM_JOGADORES = 4` (main.cpp:13).  The model keeps the
count as a parameter `n` so that claims quantified over the participant count
can be stated; the source instantiates it to 4. -/
def NUM_JOGADORES : Nat := 4

/-- Model of `std::counting_semaphore::try_acquire` (used at main.cpp:126),
with the semaphore's internal counter as a natural number: non-blocking, it
decrements the counter and answers `true` when the counter is positive, and
answers `false` leaving the counter unchanged otherwise.  These semantics are
the ones documented in the source's own comment block (main.cpp:31-50). -/
def try_acquire (c : Nat) : Bool × Nat :=
  if 0 < c then (true, c - 1) else (false, c)

/-- Number of successful acquisitions when `k` consecutive `try_acquire`
attempts are made against a gate whose counter starts at `c`. -/
def successCount : Nat → Nat → Nat
  | _, 0 => 0
  | c, k + 1 =>
      let r := try_acquire c
      (if r.1 then 1 else 0) + successCount r.2 k

/-- The shared mutable state of the program (globals of main.cpp:12-23
together with the `JogoDasCadeiras` fields `cadeiras`): the active-player
vector, the `cadeiras` count, the two atomic flags, the seated vector
`cadeiras_ocupadas` of `(id, id)` pairs, and the counter of the chair
semaphore `cadeira_sem`. -/
structure GameState where
  jogadores_ativos : List PlayerId
  cadeiras : Int
  musica_parada : Bool
  jogo_ativo : Bool
  cadeiras_ocupadas : List (PlayerId × PlayerId)
  cadeira_sem : Nat
  deriving DecidableEq

/-- Ids `1, 2, …, n`, as pushed by the `JogoDasCadeiras` constructor
(main.cpp:55-57). -/
def range1 (n : Nat) : List PlayerId :=
  (List.range n).map (fun i => Int.ofNat i + 1)

/-- Initial shared state: the `JogoDasCadeiras(num_jogadores)` constructor
(active ids `1..n`, `cadeiras = n − 1`) together with the global
initialisations (main.cpp:14-22): the chair semaphore starts at
`NUM_JOGADORES − 1`, music not stopped, game active, no chair occupied. -/
def initState (n : Nat) : GameState :=
  { jogadores_ativos := range1 n
    cadeiras := (n : Int) - 1
    musica_parada := false
    jogo_ativo := true
    cadeiras_ocupadas := []
    cadeira_sem := n - 1 }

/-- `JogoDasCadeiras::iniciar_rodada` (main.cpp:60-78): recomputes
`cadeiras = jogadores_ativos.size() - 1` and clears `cadeiras_ocupadas`.
The console output is dropped; note that this function does not touch the
chair semaphore. -/
def iniciar_rodada (g : GameState) : GameState :=
  { g with cadeiras := (g.jogadores_ativos.length : Int) - 1
           cadeiras_ocupadas := [] }

/-- `JogoDasCadeiras::parar_musica` (main.cpp:80-91): sets `musica_parada`
and broadcasts on `music_cv` (the broadcast itself carries no state). -/
def parar_musica (g : GameState) : GameState :=
  { g with musica_parada := true }

/-- `JogoDasCadeiras::eliminar_jogador` (main.cpp:93-99): erase/remove of
`jogador_id` from `jogadores_ativos`. -/
def eliminar_jogador (id : PlayerId) (g : GameState) : GameState :=
  { g with jogadores_ativos := g.jogadores_ativos.filter (fun x => x != id) }

/-- A player object: its id and its local `eliminado` flag (main.cpp:120-163). -/
structure Jogador where
  id : PlayerId
  eliminado : Bool
  deriving DecidableEq

/-- `Jogador::tentar_ocupar_cadeira` (main.cpp:125-132): a non-blocking
`try_acquire` on the chair semaphore; on success the pair `(id, id)` is
appended to `cadeiras_ocupadas`, on failure the player's local `eliminado`
flag is set. -/
def tentar_ocupar_cadeira (j : Jogador) (g : GameState) : Jogador × GameState :=
  let r := try_acquire g.cadeira_sem
  if r.1 then
    (j, { g with cadeira_sem := r.2
                 cadeiras_ocupadas := g.cadeiras_ocupadas ++ [(j.id, j.id)] })
  else
    ({ j with eliminado := true }, g)

/-- `Jogador::verificar_eliminacao` (main.cpp:134-138): when the player's own
`eliminado` flag is set, the player itself calls `eliminar_jogador` on its id. -/
def verificar_eliminacao (j : Jogador) (g : GameState) : GameState :=
  if j.eliminado then eliminar_jogador j.id g else g

/-- Predicate of the wait-for-stop in `Jogador::joga` (main.cpp:144): the
lambda passed to `music_cv.wait` reads only `musica_parada`. -/
def wait_stop_pred (g : GameState) : Bool := g.musica_parada

/-- Predicate of the wait-for-resume in `Jogador::joga` (main.cpp:154). -/
def wait_resume_pred (g : GameState) : Bool := !g.musica_parada

/-- Modelled from the spec: the release condition of `wait_until_stopped()`
(spec section 4.2) — the wait is to unblock when the Phase flag becomes true
OR the Game-active flag becomes false. -/
def spec_wait_stop_release (g : GameState) : Bool :=
  g.musica_parada || !g.jogo_ativo

/-- Phases of the `Jogador::joga` loop (spec section 4.4 state machine). -/
inductive PlayerPhase
  | waitingStop
  | claiming
  | waitingResume
  | terminated
  deriving DecidableEq

/-- Effect of a `music_cv.notify_all` broadcast, delivered in shared state
`g`, on a player blocked in the wait-for-stop: `wait(lock, pred)` re-checks
the predicate on wakeup and goes back to sleep when it is false
(main.cpp:143-145). -/
def wake_from_wait_stop (g : GameState) (p : PlayerPhase) : PlayerPhase :=
  match p with
  | PlayerPhase.waitingStop =>
      if wait_stop_pred g then PlayerPhase.claiming else PlayerPhase.waitingStop
  | q => q

/-- Combined state of the shared globals and the player objects
(`jogadores_objs` of main.cpp:237-240). -/
structure SysState where
  game : GameState
  jogadores : List Jogador
  deriving DecidableEq

/-- Initial combined state (main.cpp:233-240). -/
def initSys (n : Nat) : SysState :=
  { game := initState n
    jogadores := (range1 n).map (fun i => { id := i, eliminado := false }) }

/-- Replace the stored player object that has `j`'s id by `j`. -/
def updateJogador (ps : List Jogador) (j : Jogador) : List Jogador :=
  ps.map (fun p => if p.id == j.id then j else p)

/-- One player thread's actions inside the stopped phase of one round
(main.cpp:149-150): `tentar_ocupar_cadeira` immediately followed by
`verificar_eliminacao`.  An id with no player object is a no-op. -/
def attemptStep (s : SysState) (pid : PlayerId) : SysState :=
  match s.jogadores.find? (fun p => p.id == pid) with
  | none => s
  | some p =>
      let r := tentar_ocupar_cadeira p s.game
      { game := verificar_eliminacao r.1 r.2
        jogadores := updateJogador s.jogadores r.1 }

/-- The ids read out of `cadeiras_ocupadas` (`jogadores_sentados` of
main.cpp:203-209). -/
def sentados (g : GameState) : List PlayerId :=
  g.cadeiras_ocupadas.map Prod.fst

/-- `Coordenador::liberar_threads_eliminadas` (main.cpp:202-222): collect the
seated ids, scan `jogadores_ativos` in stored order for the first id absent
from the seated ids, eliminate it and stop scanning (`eliminado_id` stays `-1`
when every active id is seated), then `cadeira_sem->release(NUM_JOGADORES)`;
`n` is the release amount `NUM_JOGADORES`.  The `exibir_resultado_rodada` call
only prints.  Returns `(eliminado_id, new state)`. -/
def liberar_threads_eliminadas (n : Nat) (g : GameState) : Int × GameState :=
  let js := sentados g
  let step :=
    match g.jogadores_ativos.find? (fun id => !(js.contains id)) with
    | some id => (id, eliminar_jogador id g)
    | none => ((-1 : Int), g)
  (step.1, { step.2 with cadeira_sem := step.2.cadeira_sem + n })

/-- One iteration of the `Coordenador::iniciar_jogo` loop (main.cpp:171-186):
`iniciar_rodada`; (random sleep); `parar_musica`; the settle window in which
the player threads listed in `order` run their claim attempt, in that order;
`liberar_threads_eliminadas`; `musica_parada := false`; delete and rebuild the
chair semaphore with counter `jogadores_ativos.size() - 1` (main.cpp:183-184).
Returns the new state and the round's `eliminado_id`. -/
def rodada (n : Nat) (s : SysState) (order : List PlayerId) : SysState × Int :=
  let g1 := iniciar_rodada s.game
  let g2 := parar_musica g1
  let s3 := order.foldl attemptStep { game := g2, jogadores := s.jogadores }
  let r := liberar_threads_eliminadas n s3.game
  let g5 := { r.2 with musica_parada := false }
  let g6 := { g5 with cadeira_sem := g5.jogadores_ativos.length - 1 }
  ({ game := g6, jogadores := s3.jogadores }, r.1)

/-- The `Coordenador::iniciar_jogo` loop (main.cpp:170-200): rounds run while
more than one player is active; on exit `jogo_ativo` is set false (the final
`music_cv.notify_all` carries no state).  `fuel` bounds the number of
iterations (the loop itself has no bound), `orders` supplies each round's
completion order.  Returns the final state and the list of the rounds'
`eliminado_id`s (so the list's length is the number of completed rounds). -/
def iniciar_jogo (n : Nat) : Nat → SysState → List (List PlayerId) → SysState × List Int
  | 0, s, _ => (s, [])
  | fuel + 1, s, orders =>
      if 1 < s.game.jogadores_ativos.length then
        let r := rodada n s (orders.headD [])
        let rest := iniciar_jogo n fuel r.1 orders.tail
        (rest.1, r.2 :: rest.2)
      else
        ({ s with game := { s.game with jogo_ativo := false } }, [])

/-- The winner announcement (main.cpp:191-197): the first entry of
`jogadores_ativos` when that vector is non-empty, nothing otherwise. -/
def vencedor (g : GameState) : Option PlayerId :=
  g.jogadores_ativos.head?

/-- Concrete shared state used in small instantiations: three of the four
players seated, id 4 unseated. -/
def gEx : GameState :=
  { jogadores_ativos := [1, 2, 3, 4]
    cadeiras := 3
    musica_parada := true
    jogo_ativo := true
    cadeiras_ocupadas := [(1, 1), (2, 2), (3, 3)]
    cadeira_sem := 0 }

/-- Concrete shared state in which every active player is seated. -/
def gAllSeated : GameState :=
  { jogadores_ativos := [1, 2]
    cadeiras := 1
    musica_parada := true
    jogo_ativo := true
    cadeiras_ocupadas := [(1, 1), (2, 2)]
    cadeira_sem := 0 }

/-- Combined state after round 1 of the four-player game under the completion
order `[1, 2, 3, 4]`: players 1, 2, 3 seated, player 4 self-eliminated. -/
def sysAfterRound1 : SysState :=
  (rodada 4 (initSys 4) [1, 2, 3, 4]).1

/-- Combined state inside round 1 of the four-player game, after all four
players have completed their claim attempt (order `[1, 2, 3, 4]`) but before
the coordinator resolves the round: a point between the Seated-Set clear and
the elimination resolution. -/
def sysMidRound1 : SysState :=
  [1, 2, 3, 4].foldl attemptStep
    { game := parar_musica (iniciar_rodada (initSys 4).game)
      jogadores := (initSys 4).jogadores }

/-- Concrete shared state whose semaphore counter does not equal the new
round capacity, exhibiting that `iniciar_rodada` itself never touches the
gate. -/
def gStale : GameState :=
  { jogadores_ativos := [1, 2, 3]
    cadeiras := 3
    musica_parada := false
    jogo_ativo := true
    cadeiras_ocupadas := [(2, 2)]
    cadeira_sem := 0 }

/-- The four-player game run under the canonical schedule in which every
player thread completes its claim attempt every round, in id order. -/
def canonicalRun : SysState × List Int :=
  iniciar_jogo 4 10 (initSys 4) [[1, 2, 3, 4], [1, 2, 3, 4], [1, 2, 3, 4]]

section Helpers

/-- A successful `find?` splits the list at the first hit: everything before
the hit falsifies the predicate, the hit satisfies it. -/
theorem find?_some_split {α : Type} {p : α → Bool} {a : α} :
    ∀ {l : List α}, l.find? p = some a →
      ∃ pre suf, l = pre ++ a :: suf ∧ (∀ x ∈ pre, p x = false) ∧ p a = true := by
  intro l
  induction l with
  | nil => intro h; simp [List.find?] at h
  | cons b t ih =>
      intro h
      by_cases hb : p b = true
      · have hba : b = a := by
          simp [List.find?, hb] at h
          exact h
        exact ⟨[], t, by simp [hba], by simp, hba ▸ hb⟩
      · have ht : t.find? p = some a := by
          simpa [List.find?, Bool.eq_false_iff.mpr hb] using h
        obtain ⟨pre, suf, hsplit, hpre, hpa⟩ := ih ht
        refine ⟨b :: pre, suf, by simp [hsplit], ?_, hpa⟩
        intro x hx
        rcases List.mem_cons.mp hx with hxb | hxp
        · exact hxb ▸ Bool.eq_false_iff.mpr hb
        · exact hpre x hxp

/-- Filtering with any predicate yields a sublist of the original. -/
theorem filter_subset_self {α : Type} (p : α → Bool) (l : List α) :
    l.filter p ⊆ l := by
  intro x hx
  exact (List.mem_filter.mp hx).1

/-- `eliminar_jogador` only removes elements of the active vector. -/
theorem eliminar_jogador_subset (id : PlayerId) (g : GameState) :
    (eliminar_jogador id g).jogadores_ativos ⊆ g.jogadores_ativos :=
  filter_subset_self _ _

/-- `verificar_eliminacao` only removes elements of the active vector. -/
theorem verificar_eliminacao_subset (j : Jogador) (g : GameState) :
    (verificar_eliminacao j g).jogadores_ativos ⊆ g.jogadores_ativos := by
  unfold verificar_eliminacao
  by_cases h : j.eliminado <;> simp [h, eliminar_jogador_subset]

/-- `tentar_ocupar_cadeira` never changes the active vector. -/
theorem tentar_ocupar_cadeira_ativos (j : Jogador) (g : GameState) :
    (tentar_ocupar_cadeira j g).2.jogadores_ativos = g.jogadores_ativos := by
  unfold tentar_ocupar_cadeira
  by_cases h : (try_acquire g.cadeira_sem).1 <;> simp [h]

/-- One player step only removes elements of the active vector. -/
theorem attemptStep_subset (s : SysState) (pid : PlayerId) :
    (attemptStep s pid).game.jogadores_ativos ⊆ s.game.jogadores_ativos := by
  unfold attemptStep
  cases h : s.jogadores.find? (fun p => p.id == pid) with
  | none => simp
  | some p =>
      simp only [h]
      intro x hx
      have h1 := verificar_eliminacao_subset (tentar_ocupar_cadeira p s.game).1
        (tentar_ocupar_cadeira p s.game).2 hx
      rw [tentar_ocupar_cadeira_ativos] at h1
      exact h1

/-- A whole settle window of player steps only removes active elements. -/
theorem foldl_attemptStep_subset (order : List PlayerId) :
    ∀ s : SysState,
      (order.foldl attemptStep s).game.jogadores_ativos ⊆ s.game.jogadores_ativos := by
  induction order with
  | nil => intro s; simp [List.foldl]
  | cons pid rest ih =>
      intro s
      intro x hx
      exact attemptStep_subset s pid (ih (attemptStep s pid) hx)

/-- The coordinator's resolution only removes active elements. -/
theorem liberar_subset (n : Nat) (g : GameState) :
    (liberar_threads_eliminadas n g).2.jogadores_ativos ⊆ g.jogadores_ativos := by
  unfold liberar_threads_eliminadas
  simp only []
  split
  · exact eliminar_jogador_subset _ g
  · exact fun x hx => hx

/-- A full round only removes active elements. -/
theorem rodada_subset (n : Nat) (s : SysState) (order : List PlayerId) :
    (rodada n s order).1.game.jogadores_ativos ⊆ s.game.jogadores_ativos := by
  unfold rodada
  intro x hx
  simp only at hx
  have h1 := liberar_subset n
    (order.foldl attemptStep
      { game := parar_musica (iniciar_rodada s.game), jogadores := s.jogadores }).game hx
  have h2 := foldl_attemptStep_subset order
    { game := parar_musica (iniciar_rodada s.game), jogadores := s.jogadores } h1
  simpa [parar_musica, iniciar_rodada] using h2

/-- An id absent from the active vector stays absent through the whole game
loop. -/
theorem iniciar_jogo_not_mem (n : Nat) (id : PlayerId) :
    ∀ (fuel : Nat) (s : SysState) (orders : List (List PlayerId)),
      id ∉ s.game.jogadores_ativos →
      id ∉ (iniciar_jogo n fuel s orders).1.game.jogadores_ativos := by
  intro fuel
  induction fuel with
  | zero => intro s orders h; simpa [iniciar_jogo] using h
  | succ k ih =>
      intro s orders h
      unfold iniciar_jogo
      by_cases hc : 1 < s.game.jogadores_ativos.length
      · simp only [hc, if_true]
        apply ih
        intro hmem
        exact h (rodada_subset n s (orders.headD []) hmem)
      · simp only [hc, if_false]
        simpa using h

/-- The chair-semaphore counter plus the number of occupied chairs is
preserved by a player step: a successful claim moves one unit from the
counter to the seated vector, a failed claim moves nothing. -/
theorem attemptStep_sem_ocup (s : SysState) (pid : PlayerId) :
    (attemptStep s pid).game.cadeira_sem +
        (attemptStep s pid).game.cadeiras_ocupadas.length =
      s.game.cadeira_sem + s.game.cadeiras_ocupadas.length := by
  unfold attemptStep
  cases h : s.jogadores.find? (fun p => p.id == pid) with
  | none => simp
  | some p =>
      simp only [h]
      unfold verificar_eliminacao tentar_ocupar_cadeira try_acquire
      by_cases hc : 0 < s.game.cadeira_sem
      · by_cases he : p.eliminado <;>
          simp [hc, he, eliminar_jogador] <;> omega
      · by_cases he : p.eliminado <;> simp [hc, he, eliminar_jogador]

/-- The counter-plus-seats sum is preserved across a whole settle window. -/
theorem foldl_sem_ocup (order : List PlayerId) :
    ∀ s : SysState,
      (order.foldl attemptStep s).game.cadeira_sem +
          (order.foldl attemptStep s).game.cadeiras_ocupadas.length =
        s.game.cadeira_sem + s.game.cadeiras_ocupadas.length := by
  induction order with
  | nil => intro s; simp [List.foldl]
  | cons pid rest ih =>
      intro s
      simp only [List.foldl]
      rw [ih (attemptStep s pid), attemptStep_sem_ocup]

/-- Running `k` consecutive claim attempts from counter `c` succeeds exactly
`min c k` times. -/
theorem successCount_eq_min (k : Nat) : ∀ c : Nat, successCount c k = min c k := by
  induction k with
  | zero => intro c; simp [successCount]
  | succ m ih =>
      intro c
      by_cases hc : 0 < c
      · simp [successCount, try_acquire, hc, ih (c - 1)]
        omega
      · simp [successCount, try_acquire, hc, ih c]
        omega

/-- Unfolding of the coordinator's resolution when every active id is seated:
`eliminado_id` stays `-1` and only the semaphore release happens. -/
theorem liberar_eq_none (n : Nat) (g : GameState)
    (hf : g.jogadores_ativos.find? (fun id => !((sentados g).contains id)) = none) :
    liberar_threads_eliminadas n g = (-1, { g with cadeira_sem := g.cadeira_sem + n }) := by
  unfold liberar_threads_eliminadas
  simp only [hf]

/-- Unfolding of the coordinator's resolution when some active id is unseated:
the first such id is eliminated. -/
theorem liberar_eq_some (n : Nat) (g : GameState) (a : PlayerId)
    (hf : g.jogadores_ativos.find? (fun id => !((sentados g).contains id)) = some a) :
    liberar_threads_eliminadas n g =
      (a, { eliminar_jogador a g with
              cadeira_sem := (eliminar_jogador a g).cadeira_sem + n }) := by
  unfold liberar_threads_eliminadas
  simp only [hf]

/-- Vector `contains` agrees with membership (the `std::find` tests of
main.cpp:213 read this way). -/
theorem contains_iff (l : List PlayerId) (a : PlayerId) : l.contains a = true ↔ a ∈ l :=
  List.elem_iff

end Helpers

/-- C1: the claim fails on the code — this is a bug in the code.  At the end
of the canonical four-player run the coordinator has set `jogo_ativo := false`
with `musica_parada = false` and issues the final `music_cv.notify_all`
(main.cpp:188-189), but the wait-for-stop predicate (main.cpp:144) reads only
`musica_parada`: a player blocked in that wait re-checks a false predicate on
the broadcast wakeup and stays blocked forever (so `main`'s `join` hangs),
while the spec's release condition (Phase flag true OR Game-active false)
holds at that very state. -/
theorem c1_player_stays_blocked_after_game_over :
    canonicalRun.1.game.jogo_ativo = false ∧
    wait_stop_pred canonicalRun.1.game = false ∧
    wake_from_wait_stop canonicalRun.1.game PlayerPhase.waitingStop
      = PlayerPhase.waitingStop ∧
    spec_wait_stop_release canonicalRun.1.game = true := by
  decide

/-- C2 counterexample: a Player's own step `verificar_eliminacao`
(main.cpp:134-138, called from `Jogador::joga` at main.cpp:150) removes the
player's id from the Active Set purely because its local `eliminado` flag is
set — refuting the claim that removal is performed only by the Coordinator and
that the local flag never triggers removal. -/
theorem c2_player_flag_triggers_removal :
    (verificar_eliminacao { id := 4, eliminado := true } gEx).jogadores_ativos
        = [1, 2, 3] ∧
    gEx.jogadores_ativos = [1, 2, 3, 4] := by
  decide

/-- C2 amended: the Active Set is mutated by removal both by the Coordinator's
resolution and by a Player itself — `verificar_eliminacao` removes exactly the
player's own id when its local `eliminado` flag is set, and changes nothing
when the flag is clear. -/
theorem c2_amended_removal_by_player_and_coordinator (j : Jogador) (g : GameState) :
    (j.eliminado = false → verificar_eliminacao j g = g) ∧
    (j.eliminado = true →
      j.id ∉ (verificar_eliminacao j g).jogadores_ativos ∧
      ∀ x ∈ g.jogadores_ativos, x ≠ j.id →
        x ∈ (verificar_eliminacao j g).jogadores_ativos) := by
  constructor
  · intro h
    simp [verificar_eliminacao, h]
  · intro h
    constructor
    · simp [verificar_eliminacao, h, eliminar_jogador, List.mem_filter]
    · intro x hx hne
      simp [verificar_eliminacao, h, eliminar_jogador, List.mem_filter, hx,
        bne_iff_ne, hne]

/-- C2 amended, witness at a concrete input: player 4's flag is set, and the
player-side step has removed id 4 from the Active Set. -/
theorem c2_amended_witness :
    (4 : Int) ∉ (verificar_eliminacao { id := 4, eliminado := true } gEx).jogadores_ativos :=
  ((c2_amended_removal_by_player_and_coordinator { id := 4, eliminado := true } gEx).2 rfl).1

/-- C3: the claim fails on the code — this is a bug in the code.  Nothing in
`Jogador::joga` stops an eliminated player's thread from claiming again, so in
the four-player game the round-1 loser (id 4) can seat first in round 2; then
two still-active players fail, both self-eliminate (main.cpp:134-138), and the
Active Set drops from 3 to 1 in a single round: the game completes after 2
rounds, not the claimed N − 1 = 3, and round 2 removes two participants, not
exactly one. -/
theorem c3_two_eliminations_in_one_round :
    sysAfterRound1.game.jogadores_ativos = [1, 2, 3] ∧
    (rodada 4 sysAfterRound1 [4, 1, 2, 3]).1.game.jogadores_ativos = [1] ∧
    (iniciar_jogo 4 10 (initSys 4) [[1, 2, 3, 4], [4, 1, 2, 3]]).2.length = 2 := by
  decide

/-- C4 counterexample: in round 1 of the four-player game, at the point
between the Seated-Set clear and the coordinator's resolution where all four
players have attempted, three players are seated but the failed player has
already removed itself (main.cpp:134-138), so `size(Seated Set) = 3` exceeds
`size(Active Set) − 1 = 2`, refuting the claim's second inequality. -/
theorem c4_seated_exceeds_active_minus_one :
    (sentados sysMidRound1.game).length = 3 ∧
    sysMidRound1.game.jogadores_ativos.length = 3 ∧
    ¬ (sentados sysMidRound1.game).length
        ≤ sysMidRound1.game.jogadores_ativos.length - 1 := by
  decide

/-- C4 amended: with the Active Set measured at the start of the round (before
any self-elimination), both bounds hold at every point of the claim window:
when a round starts with the gate counter equal to the recomputed capacity,
then after any prefix of claim attempts the Seated Set has at most
`capacity` = `size(Active Set at round start) − 1` entries. -/
theorem c4_amended_seated_bounded_by_round_start (s : SysState) (pre : List PlayerId)
    (hsem : s.game.cadeira_sem = s.game.jogadores_ativos.length - 1)
    (hpos : 1 ≤ s.game.jogadores_ativos.length) :
    ((sentados (pre.foldl attemptStep
          { game := parar_musica (iniciar_rodada s.game)
            jogadores := s.jogadores }).game).length : Int)
        ≤ (iniciar_rodada s.game).cadeiras ∧
    (sentados (pre.foldl attemptStep
          { game := parar_musica (iniciar_rodada s.game)
            jogadores := s.jogadores }).game).length
        ≤ s.game.jogadores_ativos.length - 1 := by
  have hinv := foldl_sem_ocup pre
    { game := parar_musica (iniciar_rodada s.game), jogadores := s.jogadores }
  simp only [parar_musica, iniciar_rodada] at hinv
  simp only [sentados, List.length_map, parar_musica, iniciar_rodada]
  simp only [List.length_nil] at hinv ⊢
  constructor
  · omega
  · omega

/-- C4 amended, witness: round 1 of the four-player game under the full
completion order stays within the round-start bound (3 seated ≤ 3 chairs). -/
theorem c4_amended_witness :
    ((sentados ([1, 2, 3, 4].foldl attemptStep
          { game := parar_musica (iniciar_rodada (initSys 4).game)
            jogadores := (initSys 4).jogadores }).game).length : Int)
        ≤ (iniciar_rodada (initSys 4).game).cadeiras :=
  (c4_amended_seated_bounded_by_round_start (initSys 4) [1, 2, 3, 4]
    (by decide) (by decide)).1

/-- C5 counterexample: in the canonical four-player run every single round
ends with no unseated active participant (the failed player has already
removed itself), the resolution reports the sentinel `-1` — the very
condition the claim calls a detected invariant violation — yet the round loop
silently continues through all three rounds and announces a winner; and when
the Active Set is empty the winner announcement is merely skipped.  The code
has no abort path and raises no diagnostic. -/
theorem c5_no_abort_on_violation :
    canonicalRun.2 = [-1, -1, -1] ∧
    canonicalRun.1.game.jogadores_ativos = [1] ∧
    vencedor canonicalRun.1.game = some 1 ∧
    vencedor { canonicalRun.1.game with jogadores_ativos := [] } = none := by
  decide

/-- C5 amended: on a round in which every active participant is seated, the
coordinator's resolution reports the sentinel `-1`, leaves the Active Set
unchanged and the loop proceeds; with an empty Active Set the winner
announcement is skipped.  In neither case is the game aborted or a diagnostic
raised. -/
theorem c5_amended_silent_continue (n : Nat) (g : GameState)
    (hall : ∀ id ∈ g.jogadores_ativos, id ∈ sentados g) :
    (liberar_threads_eliminadas n g).1 = -1 ∧
    (liberar_threads_eliminadas n g).2.jogadores_ativos = g.jogadores_ativos ∧
    (g.jogadores_ativos = [] → vencedor g = none) := by
  have hf : g.jogadores_ativos.find? (fun id => !((sentados g).contains id)) = none := by
    rw [List.find?_eq_none]
    intro x hx
    simp [hall x hx]
  rw [liberar_eq_none n g hf]
  refine ⟨rfl, rfl, ?_⟩
  intro h
  simp [vencedor, h]

/-- C5 amended, witness: both active players seated — resolution yields `-1`
and the Active Set is untouched. -/
theorem c5_amended_witness :
    (liberar_threads_eliminadas 4 gAllSeated).1 = -1 :=
  (c5_amended_silent_continue 4 gAllSeated (by decide)).1

/-- C6: the non-blocking claim (`try_acquire`, main.cpp:126) consumes exactly
one unit and answers true when the counter is positive, answers false leaving
the counter unchanged when it is exhausted; `k` consecutive attempts from
capacity `c` succeed at most `c` times (exactly `c` times once `k ≥ c`), and
over a whole settle window the seated vector gains at most `cadeira_sem`
entries. -/
theorem c6_try_acquire_contract (c k : Nat) (s : SysState) (order : List PlayerId) :
    (0 < c → try_acquire c = (true, c - 1)) ∧
    (c = 0 → try_acquire c = (false, 0)) ∧
    successCount c k ≤ c ∧
    (c ≤ k → successCount c k = c) ∧
    (order.foldl attemptStep s).game.cadeiras_ocupadas.length
      ≤ s.game.cadeiras_ocupadas.length + s.game.cadeira_sem := by
  refine ⟨?_, ?_, ?_, ?_, ?_⟩
  · intro h
    simp [try_acquire, h]
  · intro h
    simp [try_acquire, h]
  · rw [successCount_eq_min k c]
    omega
  · intro h
    rw [successCount_eq_min k c]
    omega
  · have := foldl_sem_ocup order s
    omega

/-- C6 witness: capacity 2, five attempts — exactly two succeed. -/
theorem c6_witness : successCount 2 5 = 2 :=
  (c6_try_acquire_contract 2 5 (initSys 4) []).2.2.2.1 (by decide)

/-- C7 counterexample: `iniciar_rodada` (main.cpp:60-78) recomputes the
`cadeiras` count and clears the Seated Set, but it never touches the chair
semaphore: on a state whose gate counter is 0 with three active players the
counter stays 0 instead of the claimed new capacity 2.  (The gate rebuild the
claim attributes to `iniciar_rodada` actually happens in the coordinator loop
at main.cpp:183-184, at the end of the previous iteration.) -/
theorem c7_iniciar_rodada_does_not_rebuild_gate :
    (iniciar_rodada gStale).cadeiras = 2 ∧
    (iniciar_rodada gStale).cadeiras_ocupadas = [] ∧
    (iniciar_rodada gStale).cadeira_sem = gStale.cadeira_sem ∧
    (iniciar_rodada gStale).cadeira_sem ≠ 2 := by
  decide

/-- C7 amended: `iniciar_rodada` recomputes the capacity and clears the
Seated Set only; the Resource Gate is rebuilt by the coordinator at the end of
the previous loop iteration (main.cpp:183-184, initial construction at
main.cpp:14 for round 1).  Since that rebuild sets the counter to
`size(Active Set) − 1` and the Active Set is unchanged up to the next round's
claim window, every round still opens its claim window with gate counter equal
to the freshly recomputed capacity and an empty Seated Set: the initial state
satisfies the alignment, the window start preserves it, and every completed
round re-establishes it. -/
theorem c7_amended_gate_rebuilt_before_claims (s : SysState) (n : Nat)
    (hsem : s.game.cadeira_sem = s.game.jogadores_ativos.length - 1)
    (hpos : 1 ≤ s.game.jogadores_ativos.length) :
    (parar_musica (iniciar_rodada s.game)).cadeiras_ocupadas = [] ∧
    ((parar_musica (iniciar_rodada s.game)).cadeira_sem : Int)
        = (parar_musica (iniciar_rodada s.game)).cadeiras ∧
    (initState n).cadeira_sem = (initState n).jogadores_ativos.length - 1 ∧
    ∀ order, (rodada n s order).1.game.cadeira_sem
        = (rodada n s order).1.game.jogadores_ativos.length - 1 := by
  refine ⟨rfl, ?_, ?_, ?_⟩
  · simp only [parar_musica, iniciar_rodada, hsem]
    omega
  · simp only [initState]
    rw [range1, List.length_map, List.length_range]
  · intro order
    rfl

/-- C7 amended, witness: at the initial four-player state the claim window
opens with the gate counter equal to the recomputed capacity. -/
theorem c7_amended_witness :
    ((parar_musica (iniciar_rodada (initSys 4).game)).cadeira_sem : Int)
      = (parar_musica (iniciar_rodada (initSys 4).game)).cadeiras :=
  (c7_amended_gate_rebuilt_before_claims (initSys 4) 4 (by decide) (by decide)).2.1

/-- C8: whatever state the gate and the rest of the system were left in by the
finished round (released or unconsumed permits included), the delete-and-new
rebuild at the end of the round (main.cpp:183-184) leaves a gate whose counter
is exactly the new capacity `size(Active Set) − 1`, and `k` claim attempts
against it in the next round succeed exactly `min(capacity, k)` times — at
most `capacity`, and exactly `capacity` once `k ≥ capacity`; nothing of the
previous round's counter survives. -/
theorem c8_rebuild_yields_exact_capacity (n : Nat) (s : SysState)
    (order : List PlayerId) (k : Nat) :
    (rodada n s order).1.game.cadeira_sem
        = (rodada n s order).1.game.jogadores_ativos.length - 1 ∧
    successCount (rodada n s order).1.game.cadeira_sem k
        = min ((rodada n s order).1.game.jogadores_ativos.length - 1) k := by
  constructor
  · rfl
  · have h1 : (rodada n s order).1.game.cadeira_sem
        = (rodada n s order).1.game.jogadores_ativos.length - 1 := rfl
    rw [successCount_eq_min k, h1]

/-- C9: a participant id is removed from the Active Set at most once — a
second `eliminar_jogador` of the same id changes nothing, the id is absent
right after its elimination, and an id absent from the Active Set never
reappears in any later round of the game loop. -/
theorem c9_no_double_elimination (id : PlayerId) (g : GameState) (s : SysState)
    (h : id ∉ s.game.jogadores_ativos) :
    eliminar_jogador id (eliminar_jogador id g) = eliminar_jogador id g ∧
    id ∉ (eliminar_jogador id g).jogadores_ativos ∧
    ∀ (n fuel : Nat) (orders : List (List PlayerId)),
      id ∉ (iniciar_jogo n fuel s orders).1.game.jogadores_ativos := by
  refine ⟨?_, ?_, ?_⟩
  · cases g
    simp [eliminar_jogador, List.filter_filter]
  · simp [eliminar_jogador, List.mem_filter]
  · intro n fuel orders
    exact iniciar_jogo_not_mem n id fuel s orders h

/-- C9 witness: id 4, eliminated in round 1, is still absent after two more
rounds of the four-player game. -/
theorem c9_witness :
    (4 : Int) ∉ (iniciar_jogo 4 5 sysAfterRound1
        [[1, 2, 3, 4], [1, 2, 3, 4]]).1.game.jogadores_ativos :=
  (c9_no_double_elimination 4 gEx sysAfterRound1 (by decide)).2.2 4 5
    [[1, 2, 3, 4], [1, 2, 3, 4]]

/-- C10: the coordinator's resolution (main.cpp:202-222) removes at most one
participant — every active id other than the reported one survives; when
every active id is seated it removes no one and reports the sentinel `-1`;
and when it reports an id, that id is the first active id in stored order
absent from the seated ids, and exactly that id is erased from the Active
Set. -/
theorem c10_resolution_removes_first_unseated (n : Nat) (g : GameState) :
    (∀ x ∈ g.jogadores_ativos, x ≠ (liberar_threads_eliminadas n g).1 →
        x ∈ (liberar_threads_eliminadas n g).2.jogadores_ativos) ∧
    ((∀ id ∈ g.jogadores_ativos, id ∈ sentados g) →
        (liberar_threads_eliminadas n g).1 = -1 ∧
        (liberar_threads_eliminadas n g).2.jogadores_ativos = g.jogadores_ativos) ∧
    (∀ a, g.jogadores_ativos.find? (fun id => !((sentados g).contains id)) = some a →
        (liberar_threads_eliminadas n g).1 = a ∧
        a ∉ sentados g ∧
        (∃ pre suf, g.jogadores_ativos = pre ++ a :: suf ∧
            ∀ x ∈ pre, x ∈ sentados g) ∧
        (liberar_threads_eliminadas n g).2.jogadores_ativos
          = g.jogadores_ativos.filter (fun x => x != a)) := by
  cases hf : g.jogadores_ativos.find? (fun id => !((sentados g).contains id)) with
  | none =>
      rw [liberar_eq_none n g hf]
      refine ⟨?_, ?_, ?_⟩
      · intro x hx _
        exact hx
      · intro _
        exact ⟨rfl, rfl⟩
      · intro a ha
        exact Option.noConfusion ha
  | some a =>
      rw [liberar_eq_some n g a hf]
      obtain ⟨pre, suf, hsplit, hpre, hpa⟩ := find?_some_split hf
      have hnot : a ∉ sentados g := by
        intro hmem
        have hc := (contains_iff (sentados g) a).mpr hmem
        rw [hc] at hpa
        simp at hpa
      refine ⟨?_, ?_, ?_⟩
      · intro x hx hne
        simp [eliminar_jogador, List.mem_filter, hx, bne_iff_ne, hne]
      · intro hall
        exact absurd (hall a (hsplit ▸ List.mem_append_right pre (List.mem_cons_self a suf))) hnot
      · intro b hb
        have hab : a = b := by
          injection hb
        subst hab
        refine ⟨rfl, hnot, ⟨pre, suf, hsplit, ?_⟩, rfl⟩
        intro x hx
        have hx' := hpre x hx
        have hcx : (sentados g).contains x = true := by
          cases hc : (sentados g).contains x
          · rw [hc] at hx'
            simp at hx'
          · rfl
        exact (contains_iff (sentados g) x).mp hcx

/-- C10 witness: with players 1, 2, 3 seated and 1, 2, 3, 4 active, every
active id other than the resolved one survives the resolution — id 1 in
particular. -/
theorem c10_witness :
    (1 : Int) ∈ (liberar_threads_eliminadas 4 gEx).2.jogadores_ativos :=
  (c10_resolution_removes_first_unseated 4 gEx).1 1 (by decide) (by decide)

end MusicalChairs
